import Mathlib

/-
  Shallow embedding of the SmartPOS point-of-sale backend.

  Money (Django DecimalField with 2 decimal places) is modelled as Int cents:
  quantities are integers and every arithmetic operation the code performs on
  these decimals (multiplication by an integer quantity, summation) is exact,
  so Int cents is a faithful carrier.

  Naming note: the sales app (src/sales/serializers.py, src/sales/tests.py)
  refers to the product price and stock fields as selling_price and
  stock_quantity, while src/products/models.py declares them as unit_price and
  quantity_in_stock.  Both names denote the same two columns of the single
  Product model; the embedding uses the model's declared names.
-/

namespace SmartPOS

/-- Product row, from src/products/models.py (class Product).  The
auto-managed created_at / updated_at timestamps carry no behaviour and are
omitted. -/
structure Product where
  id : Nat
  name : String
  sku : String
  category : String
  unit_price : Int
  quantity_in_stock : Int
  low_stock_threshold : Int
deriving DecidableEq

/-- Product.is_low_stock from src/products/models.py. -/
def Product.is_low_stock (p : Product) : Bool :=
  p.quantity_in_stock ≤ p.low_stock_threshold

/-- Product.decrease_stock from src/products/models.py: rejects non-positive
quantities, rejects insufficient stock, otherwise decrements. -/
def Product.decrease_stock (p : Product) (quantity : Int) : Except String Product :=
  if quantity ≤ 0 then
    .error "Quantity must be positive"
  else if p.quantity_in_stock < quantity then
    .error ("Insufficient stock. Available: " ++ toString p.quantity_in_stock ++
      ", Requested: " ++ toString quantity)
  else
    .ok { p with quantity_in_stock := p.quantity_in_stock - quantity }

/-- Product.increase_stock from src/products/models.py. -/
def Product.increase_stock (p : Product) (quantity : Int) : Except String Product :=
  if quantity ≤ 0 then
    .error "Quantity must be positive"
  else
    .ok { p with quantity_in_stock := p.quantity_in_stock + quantity }

/-- Sale row, from src/sales/models.py (class Sale).  sale_date is an abstract
timestamp (seconds); cashier is the user id of the cashier foreign key. -/
structure Sale where
  id : Nat
  sale_date : Nat
  cashier : Nat
  total_amount : Int
  transaction_id : String
deriving DecidableEq

/-- Sale.save from src/sales/models.py: generate a transaction id exactly when
the field is blank, then hand the row to the database.  The generated id
(uuid-based in the source) is supplied as the freshTid oracle. -/
def Sale.save (freshTid : String) (s : Sale) : Sale :=
  if s.transaction_id = "" then { s with transaction_id := freshTid } else s

/-- Database insert of a Sale row: Sale.save runs first, then the
unique=True constraint on transaction_id (src/sales/models.py) rejects a
duplicate.  No re-check or retry exists in the source; a collision surfaces
as the database error. -/
def insertSale (existing : List String) (freshTid : String) (s : Sale) :
    Except String Sale :=
  let s1 := Sale.save freshTid s
  if s1.transaction_id ∈ existing then
    .error "UNIQUE constraint failed: sales_sale.transaction_id"
  else
    .ok s1

/-- SaleItem row, from src/sales/models.py (class SaleItem). -/
structure SaleItem where
  sale_id : Nat
  product_id : Nat
  quantity : Int
  price_at_sale : Int
deriving DecidableEq

/-- SaleItem.subtotal from src/sales/models.py. -/
def SaleItem.subtotal (it : SaleItem) : Int :=
  it.quantity * it.price_at_sale

/-- One line of a createSale request body, as deserialized by
SaleItemSerializer (src/sales/serializers.py): product_id, quantity, and the
optional caller-supplied price_at_sale override. -/
structure LineReq where
  product_id : Nat
  quantity : Int
  price_at_sale : Option Int
deriving DecidableEq

/-- A line after SaleSerializer.validate has filled in price_at_sale. -/
structure VItem where
  product_id : Nat
  quantity : Int
  price_at_sale : Int
deriving DecidableEq

/-- Product.objects.get(id=pid) on the products table. -/
def findProduct (prods : List Product) (pid : Nat) : Option Product :=
  prods.find? (fun p => p.id == pid)

/-- product.save(update_fields=[stock field]) : write back the stock value of
the row with the given primary key. -/
def updateStock (prods : List Product) (pid : Nat) (newStock : Int) : List Product :=
  prods.map (fun p => if p.id = pid then { p with quantity_in_stock := newStock } else p)

/-- The loop of SaleSerializer.validate (src/sales/serializers.py lines
77-104): for each line in request order, select_for_update().get the product
(recording the acquired row lock in the trace), fail on a missing product or
insufficient stock, and default price_at_sale to the product's current price
when the line supplies none.  Returns the lock-acquisition trace together
with the validated lines. -/
def validateLoop (prods : List Product) :
    List LineReq → List Nat → List Nat × Except String (List VItem)
  | [], trace => (trace, .ok [])
  | l :: rest, trace =>
    match findProduct prods l.product_id with
    | none =>
        (trace, .error ("Product with id " ++ toString l.product_id ++ " does not exist"))
    | some p =>
        if p.quantity_in_stock < l.quantity then
          (trace ++ [l.product_id],
           .error ("Insufficient stock for " ++ p.name ++ ". Available: " ++
             toString p.quantity_in_stock ++ ", Requested: " ++ toString l.quantity))
        else
          match validateLoop prods rest (trace ++ [l.product_id]) with
          | (t, .error e) => (t, .error e)
          | (t, .ok vs) =>
              (t, .ok (({ product_id := l.product_id, quantity := l.quantity,
                          price_at_sale := l.price_at_sale.getD p.unit_price } : VItem) :: vs))

/-- Full request validation: SaleSerializer.validate_items (non-empty, at
most 100 lines) followed by the SaleSerializer.validate stock loop. -/
def runValidation (prods : List Product) (lines : List LineReq) :
    List Nat × Except String (List VItem) :=
  if lines.isEmpty then
    ([], .error "Sale must contain at least one item")
  else if lines.length > 100 then
    ([], .error "Sale cannot contain more than 100 items")
  else
    validateLoop prods lines []

/-- Persistent database state: the products, sales and sale-items tables. -/
structure Store where
  products : List Product
  sales : List Sale
  saleItems : List SaleItem
deriving DecidableEq

/-- The SaleItem row created for a validated line inside
SaleSerializer.create (SaleItem.objects.create). -/
def VItem.toSaleItem (saleId : Nat) (v : VItem) : SaleItem :=
  { sale_id := saleId, product_id := v.product_id, quantity := v.quantity,
    price_at_sale := v.price_at_sale }

/-- The per-line loop of SaleSerializer.create (src/sales/serializers.py
lines 119-142): re-fetch the product under lock, re-check stock, create the
SaleItem, decrement the product's stock, and accumulate the running total.
The partially mutated products table is returned even on failure; atomicity
is supplied by the transaction wrapper, not by this loop. -/
def createItemsLoop (saleId : Nat) :
    List Product → List VItem → Int → List SaleItem →
    List Product × Except String (Int × List SaleItem)
  | prods, [], total, acc => (prods, .ok (total, acc))
  | prods, v :: rest, total, acc =>
    match findProduct prods v.product_id with
    | none =>
        (prods, .error ("Product with id " ++ toString v.product_id ++ " does not exist"))
    | some p =>
        if p.quantity_in_stock < v.quantity then
          (prods, .error ("Insufficient stock for " ++ p.name ++ ". Available: " ++
            toString p.quantity_in_stock))
        else
          createItemsLoop saleId
            (updateStock prods v.product_id (p.quantity_in_stock - v.quantity))
            rest
            (total + SaleItem.subtotal (VItem.toSaleItem saleId v))
            (acc ++ [VItem.toSaleItem saleId v])

/-- Body of SaleSerializer.create (src/sales/serializers.py lines 106-148),
without the transaction.atomic decorator: create the Sale row (Sale.save
generates the transaction id, the unique constraint checks it), run the
per-line loop, then write the accumulated total back onto the sale row.
Effects are staged directly into the store, so a mid-loop failure leaves the
store partially mutated; the atomic wrapper below discards such a store. -/
def createRaw (cashier : Nat) (freshTid : String) (now : Nat) (vitems : List VItem)
    (st : Store) : Store × Except String (Sale × List SaleItem) :=
  match insertSale (st.sales.map (fun s => s.transaction_id)) freshTid
      { id := st.sales.length, sale_date := now, cashier := cashier,
        total_amount := 0, transaction_id := "" } with
  | .error e => (st, .error e)
  | .ok sale0 =>
    let st1 : Store := { st with sales := st.sales ++ [sale0] }
    match createItemsLoop sale0.id st1.products vitems 0 [] with
    | (prods1, .error e) => ({ st1 with products := prods1 }, .error e)
    | (prods1, .ok (total, items)) =>
        let sale : Sale := { sale0 with total_amount := total }
        ({ st1 with
            products := prods1,
            sales := st1.sales.map (fun s => if s.id = sale.id then sale else s),
            saleItems := st1.saleItems ++ items },
         .ok (sale, items))

/-- Django's transaction.atomic: on success the mutated store is committed,
on any exception every staged effect is rolled back. -/
def atomic (f : Store → Store × Except String α) (st : Store) :
    Store × Except String α :=
  match f st with
  | (st1, .ok a) => (st1, .ok a)
  | (_, .error e) => (st, .error e)

/-- DRF serializer.save(**kwargs) merge for the cashier field: keyword
arguments passed by the view override the deserialized body value.
SaleViewSet.perform_create always passes cashier=request.user. -/
def serializerSaveCashier (validated : Option Nat) (kwarg : Option Nat) : Option Nat :=
  match kwarg with
  | some c => some c
  | none => validated

/-- The POST /api/sales/ path (SaleViewSet.create + perform_create +
SaleSerializer): validate the body, resolve the cashier (the body's cashier
field, overridden by the authenticated request user), then run the atomic
create.  On any failure the store is unchanged and an error is reported. -/
def createEndpoint (st : Store) (requestUser : Nat) (bodyCashier : Option Nat)
    (freshTid : String) (now : Nat) (lines : List LineReq) :
    Store × Except String (Sale × List SaleItem) :=
  match (runValidation st.products lines).2 with
  | .error e => (st, .error e)
  | .ok vitems =>
    match serializerSaveCashier bodyCashier (some requestUser) with
    | none => (st, .error "cashier is required")
    | some c => atomic (createRaw c freshTid now vitems) st

/-- Direct admin edit of a product's price (products app update), used to
state that a recorded price_at_sale is decoupled from later price changes. -/
def setUnitPrice (st : Store) (pid : Nat) (price : Int) : Store :=
  { st with products :=
      st.products.map (fun p => if p.id = pid then { p with unit_price := price } else p) }

/-- Authenticated request user as the sales views see it
(request.user: id, username, staff/superuser flags). -/
structure RequestUser where
  id : Nat
  username : String
  is_staff : Bool
  is_superuser : Bool
deriving DecidableEq

/-- User.objects lookup by primary key (for the cashier foreign-key joins). -/
def findUser (users : List RequestUser) (uid : Nat) : Option RequestUser :=
  users.find? (fun u => u.id == uid)

/-- SaleViewSet.get_queryset (src/sales/views.py lines 29-49): staff or
superusers see every sale, anyone else only the sales whose cashier is
themselves.  The select_related / prefetch_related hints affect no results. -/
def get_queryset (sales : List Sale) (u : RequestUser) : List Sale :=
  if u.is_staff || u.is_superuser then sales
  else sales.filter (fun s => s.cashier == u.id)

/-- Query parameters of SaleFilter (src/sales/filters.py).  Dates are the
same abstract timestamps as Sale.sale_date; the date filter compares the
calendar day, modelled as the timestamp divided by 86400. -/
structure SaleFilterParams where
  start_date : Option Nat
  end_date : Option Nat
  date : Option Nat
  transaction_id : Option String
  cashier : Option Nat
  cashier_username : Option String
  min_amount : Option Int
  max_amount : Option Int
deriving DecidableEq

/-- Case-insensitive substring test over the character lists (the icontains
lookup of SaleFilter). -/
def lowerContains : List Char → List Char → Bool
  | _, [] => true
  | [], _ :: _ => false
  | c :: cs, d :: ds => List.isPrefixOf (d :: ds) (c :: cs) || lowerContains cs (d :: ds)

/-- icontains: case-insensitive containment on strings. -/
def icontains (hay sub : String) : Bool :=
  lowerContains (hay.data.map Char.toLower) (sub.data.map Char.toLower)

/-- Predicate of SaleFilter (src/sales/filters.py): every supplied parameter
must match; the cashier_username filter joins through the cashier row. -/
def matchesFilter (users : List RequestUser) (f : SaleFilterParams) (s : Sale) : Bool :=
  (match f.start_date with | none => true | some d => decide (d ≤ s.sale_date)) &&
  (match f.end_date with | none => true | some d => decide (s.sale_date ≤ d)) &&
  (match f.date with | none => true | some d => s.sale_date / 86400 == d) &&
  (match f.transaction_id with | none => true | some sub => icontains s.transaction_id sub) &&
  (match f.cashier with | none => true | some cid => s.cashier == cid) &&
  (match f.cashier_username with
   | none => true
   | some sub =>
     match findUser users s.cashier with
     | none => false
     | some u => icontains u.username sub) &&
  (match f.min_amount with | none => true | some m => decide (m ≤ s.total_amount)) &&
  (match f.max_amount with | none => true | some m => decide (s.total_amount ≤ m))

/-- GET /api/sales/ (SaleViewSet.list): filter_queryset applied on top of the
role-scoped get_queryset, so caller-supplied filters only ever narrow the
scoped set. -/
def listSales (users : List RequestUser) (sales : List Sale) (u : RequestUser)
    (f : SaleFilterParams) : List Sale :=
  (get_queryset sales u).filter (matchesFilter users f)

/-- HTTP-level response envelope of the sales views. -/
structure ApiResponse where
  status : String
  message : String
  http_status : Nat
deriving DecidableEq

/-- SaleViewSet.update (src/sales/views.py lines 116-124): returns the 405
immutability error without touching the database. -/
def saleViewSetUpdate (st : Store) (_pk : Nat) : Store × ApiResponse :=
  (st, { status := "error", message := "Sales cannot be modified after creation",
         http_status := 405 })

/-- SaleViewSet partial-update handler (src/sales/views.py lines 126-134):
identical 405 immutability error, no database access. -/
def saleViewSetPatch (st : Store) (_pk : Nat) : Store × ApiResponse :=
  (st, { status := "error", message := "Sales cannot be modified after creation",
         http_status := 405 })

/-- SaleViewSet.destroy (src/sales/views.py lines 136-144): 405 error, no
deletion performed. -/
def saleViewSetDestroy (st : Store) (_pk : Nat) : Store × ApiResponse :=
  (st, { status := "error", message := "Sales cannot be deleted. Please process a refund instead.",
         http_status := 405 })

/-- SaleSerializer.update (src/sales/serializers.py lines 150-156):
unconditionally raises a validation error. -/
def SaleSerializer.update (_inst : Sale) : Except String Sale :=
  .error "Sales cannot be modified after creation. Please create a new sale or process a refund."

/-- Demo product for concrete evaluations: the 999.99 laptop with stock 10
of the sales test fixtures, price in cents. -/
def demoLaptop : Product :=
  { id := 1, name := "Laptop", sku := "SKU1", category := "E",
    unit_price := 99999, quantity_in_stock := 10, low_stock_threshold := 5 }

/-- Demo product: the 29.99 mouse with stock 50 of the sales test fixtures. -/
def demoMouse : Product :=
  { id := 2, name := "Mouse", sku := "SKU2", category := "E",
    unit_price := 2999, quantity_in_stock := 50, low_stock_threshold := 10 }

/-- Demo product table. -/
def demoProducts : List Product := [demoLaptop, demoMouse]

/-- Demo store holding the demo products and no sales. -/
def demoStore : Store := { products := demoProducts, sales := [], saleItems := [] }

/-- An order whose two lines name the products in descending id order. -/
def demoSwappedLines : List LineReq := [⟨2, 1, none⟩, ⟨1, 1, none⟩]

/-- A Sale row before its first save: blank transaction id. -/
def demoBlankSale : Sale :=
  { id := 0, sale_date := 0, cashier := 7, total_amount := 0, transaction_id := "" }

/-- A Sale row that has already been persisted with a transaction id. -/
def demoSavedSale : Sale :=
  { id := 3, sale_date := 5, cashier := 7, total_amount := 100, transaction_id := "TXN-OLD" }

/-- Demo admin request user. -/
def demoAdmin : RequestUser := { id := 1, username := "admin", is_staff := true, is_superuser := true }

/-- Demo cashier request user. -/
def demoCashierUser : RequestUser := { id := 2, username := "cashier1", is_staff := false, is_superuser := false }

/-- Demo sales table: one sale per cashier. -/
def demoSales : List Sale :=
  [ { id := 0, sale_date := 0, cashier := 2, total_amount := 10000, transaction_id := "TXN-A" },
    { id := 1, sale_date := 0, cashier := 3, total_amount := 20000, transaction_id := "TXN-B" } ]

/-- Filter with no parameters supplied. -/
def noFilter : SaleFilterParams :=
  { start_date := none, end_date := none, date := none, transaction_id := none,
    cashier := none, cashier_username := none, min_amount := none, max_amount := none }

section Lemmas

/-- Rolling back: when the wrapped computation fails, atomic returns the
original store. -/
theorem atomic_error_fst (f : Store → Store × Except String α) (st : Store)
    (e : String) (h : (atomic f st).2 = .error e) : (atomic f st).1 = st := by
  unfold atomic at h ⊢
  rcases hf : f st with ⟨st1, r⟩
  cases r <;> simp [hf] at h ⊢

/-- Committing: when the wrapped computation succeeds, atomic passes its
result through. -/
theorem atomic_ok (f : Store → Store × Except String α) (st : Store)
    (a : α) (h : (atomic f st).2 = .ok a) :
    f st = ((atomic f st).1, .ok a) := by
  unfold atomic at h ⊢
  rcases hf : f st with ⟨st1, r⟩
  cases r <;> simp [hf] at h ⊢
  exact h

/-- Sale.save touches only the transaction_id field. -/
theorem Sale.save_cashier (fresh : String) (s : Sale) :
    (Sale.save fresh s).cashier = s.cashier := by
  unfold Sale.save
  split <;> rfl

/-- On success, the create loop appends exactly one SaleItem per validated
line, and the running total accumulates the subtotals of those items. -/
theorem createItemsLoop_ok (sid : Nat) :
    ∀ (vs : List VItem) (prods : List Product) (total : Int) (acc : List SaleItem)
      (prods1 : List Product) (t : Int) (its : List SaleItem),
      createItemsLoop sid prods vs total acc = (prods1, .ok (t, its)) →
      its = acc ++ vs.map (VItem.toSaleItem sid) ∧
      t = total + (vs.map (fun v => v.quantity * v.price_at_sale)).sum := by
  intro vs
  induction vs with
  | nil =>
      intro prods total acc prods1 t its h
      unfold createItemsLoop at h
      simp at h
      obtain ⟨_, h2, h3⟩ := h
      simp [h2.symm, h3.symm]
  | cons v rest ih =>
      intro prods total acc prods1 t its h
      unfold createItemsLoop at h
      rcases hf : findProduct prods v.product_id with _ | p
      · simp [hf] at h
      · simp only [hf] at h
        by_cases hq : p.quantity_in_stock < v.quantity
        · simp [hq] at h
        · simp only [if_neg hq] at h
          obtain ⟨h1, h2⟩ := ih _ _ _ _ _ _ h
          constructor
          · simp [h1, List.append_assoc]
          · simp [h2, SaleItem.subtotal, VItem.toSaleItem]
            ring

/-- The create loop preserves non-negativity of every stock level: a
decrement happens only after the stock check passed. -/
theorem createItemsLoop_nonneg (sid : Nat) :
    ∀ (vs : List VItem) (prods : List Product) (total : Int) (acc : List SaleItem),
      (∀ p ∈ prods, 0 ≤ p.quantity_in_stock) →
      ∀ p ∈ (createItemsLoop sid prods vs total acc).1, 0 ≤ p.quantity_in_stock := by
  intro vs
  induction vs with
  | nil =>
      intro prods total acc hprods p hp
      unfold createItemsLoop at hp
      exact hprods p hp
  | cons v rest ih =>
      intro prods total acc hprods p hp
      unfold createItemsLoop at hp
      rcases hf : findProduct prods v.product_id with _ | q
      · simp [hf] at hp
        exact hprods p hp
      · simp only [hf] at hp
        by_cases hq : q.quantity_in_stock < v.quantity
        · simp [hq] at hp
          exact hprods p hp
        · simp only [if_neg hq] at hp
          refine ih _ _ _ ?_ p hp
          intro r hr
          unfold updateStock at hr
          obtain ⟨r0, hr0, hrr⟩ := List.mem_map.mp hr
          by_cases hid : r0.id = v.product_id
          · simp [hid] at hrr
            rw [← hrr]
            simp
            omega
          · simp [hid] at hrr
            rw [← hrr]
            exact hprods r0 hr0

/-- On successful validation, the lock trace is the accumulator followed by
the product ids of the lines, in request order. -/
theorem validateLoop_trace (prods : List Product) :
    ∀ (lines : List LineReq) (trace : List Nat) (vs : List VItem),
      (validateLoop prods lines trace).2 = .ok vs →
      (validateLoop prods lines trace).1 = trace ++ lines.map (fun l => l.product_id) := by
  intro lines
  induction lines with
  | nil =>
      intro trace vs _
      simp [validateLoop]
  | cons l rest ih =>
      intro trace vs h
      unfold validateLoop at h ⊢
      rcases hf : findProduct prods l.product_id with _ | p
      · simp [hf] at h
      · simp only [hf] at h ⊢
        by_cases hq : p.quantity_in_stock < l.quantity
        · simp [hq] at h
        · simp only [if_neg hq] at h ⊢
          rcases hrec : validateLoop prods rest (trace ++ [l.product_id]) with ⟨t, r⟩
          cases r with
          | error e => simp [hrec] at h
          | ok vs1 =>
              simp only [hrec]
              have := ih (trace ++ [l.product_id]) vs1 (by simp [hrec])
              rw [hrec] at this
              simp at this ⊢
              simpa using this

/-- On successful validation, every line yields a validated item at the same
index whose price is the supplied override, or the current unit price of the
product the line resolves to when no override is supplied. -/
theorem validateLoop_get (prods : List Product) :
    ∀ (lines : List LineReq) (trace : List Nat) (vs : List VItem),
      (validateLoop prods lines trace).2 = .ok vs →
      ∀ (i : Nat) (l : LineReq), lines[i]? = some l →
      ∃ p vi, findProduct prods l.product_id = some p ∧ vs[i]? = some vi ∧
        vi.product_id = l.product_id ∧ vi.quantity = l.quantity ∧
        vi.price_at_sale = l.price_at_sale.getD p.unit_price := by
  intro lines
  induction lines with
  | nil =>
      intro trace vs _ i l hl
      simp at hl
  | cons l0 rest ih =>
      intro trace vs h i l hl
      unfold validateLoop at h
      rcases hf : findProduct prods l0.product_id with _ | p
      · simp [hf] at h
      · simp only [hf] at h
        by_cases hq : p.quantity_in_stock < l0.quantity
        · simp [hq] at h
        · simp only [if_neg hq] at h
          rcases hrec : validateLoop prods rest (trace ++ [l0.product_id]) with ⟨t, r⟩
          cases r with
          | error e => simp [hrec] at h
          | ok vs1 =>
              simp [hrec] at h
              cases i with
              | zero =>
                  simp at hl
                  subst hl
                  refine ⟨p, ⟨l0.product_id, l0.quantity, l0.price_at_sale.getD p.unit_price⟩,
                    hf, ?_, rfl, rfl, rfl⟩
                  simp [← h]
              | succ n =>
                  simp at hl
                  obtain ⟨q, vi, hq1, hvi, h1, h2, h3⟩ :=
                    ih (trace ++ [l0.product_id]) vs1 (by simp [hrec]) n l hl
                  refine ⟨q, vi, hq1, ?_, h1, h2, h3⟩
                  simp [← h, hvi]

/-- Any failing run of the create endpoint leaves the store untouched:
validation failures never reach the store, and failures inside the atomic
block are rolled back. -/
theorem createEndpoint_error_aux (st : Store) (u : Nat) (c : Option Nat) (tid : String)
    (now : Nat) (lines : List LineReq) (e : String)
    (h : (createEndpoint st u c tid now lines).2 = .error e) :
    (createEndpoint st u c tid now lines).1 = st := by
  unfold createEndpoint at h ⊢
  rcases hv : (runValidation st.products lines).2 with e1 | vs
  · simp [hv]
  · simp only [hv, serializerSaveCashier] at h ⊢
    exact atomic_error_fst _ _ _ h

/-- A successful run of the create endpoint factors through a successful
validation and a successful committed createRaw with the request user as
cashier. -/
theorem createEndpoint_ok_aux (st : Store) (u : Nat) (c : Option Nat) (tid : String)
    (now : Nat) (lines : List LineReq) (res : Sale × List SaleItem)
    (h : (createEndpoint st u c tid now lines).2 = .ok res) :
    ∃ vs, (runValidation st.products lines).2 = .ok vs ∧
      createRaw u tid now vs st = ((createEndpoint st u c tid now lines).1, .ok res) := by
  unfold createEndpoint at h ⊢
  rcases hv : (runValidation st.products lines).2 with e1 | vs
  · simp [hv] at h
  · simp only [hv, serializerSaveCashier] at h ⊢
    exact ⟨vs, rfl, atomic_ok _ _ _ h⟩

/-- Anatomy of a successful createRaw run: the inserted sale row, the loop
result, the total written back, and the resulting store. -/
theorem createRaw_ok (cashier : Nat) (tid : String) (now : Nat) (vs : List VItem)
    (st st1 : Store) (sale : Sale) (items : List SaleItem)
    (h : createRaw cashier tid now vs st = (st1, .ok (sale, items))) :
    ∃ sale0 prods1 total,
      insertSale (st.sales.map (fun s => s.transaction_id)) tid
        { id := st.sales.length, sale_date := now, cashier := cashier,
          total_amount := 0, transaction_id := "" } = .ok sale0 ∧
      createItemsLoop sale0.id st.products vs 0 [] = (prods1, .ok (total, items)) ∧
      sale = { sale0 with total_amount := total } ∧
      st1 = { products := prods1,
              sales := (st.sales ++ [sale0]).map (fun s => if s.id = sale.id then sale else s),
              saleItems := st.saleItems ++ items } := by
  unfold createRaw at h
  rcases hi : insertSale (st.sales.map (fun s => s.transaction_id)) tid
      { id := st.sales.length, sale_date := now, cashier := cashier,
        total_amount := 0, transaction_id := "" } with e | sale0
  · simp [hi] at h
  · simp only [hi] at h
    rcases hl : createItemsLoop sale0.id st.products vs 0 [] with ⟨prods1, r⟩
    cases r with
    | error e => simp [hl] at h
    | ok tr =>
        rcases tr with ⟨total, its⟩
        simp only [hl] at h
        refine ⟨sale0, prods1, total, hi, ?_, ?_, ?_⟩
        · cases h
          exact hl
        · cases h
          rfl
        · cases h
          rfl

end Lemmas

/-- C1: for every sale creation that succeeds, the persisted Sale's
total_amount equals the sum over its SaleItems of quantity * price_at_sale,
computed exactly in fixed-point arithmetic (Int cents in this embedding, with
no rounding step anywhere). -/
theorem C1_total_amount_eq_sum_subtotals (st : Store) (u : Nat) (c : Option Nat)
    (tid : String) (now : Nat) (lines : List LineReq) (sale : Sale) (items : List SaleItem)
    (h : (createEndpoint st u c tid now lines).2 = .ok (sale, items)) :
    sale.total_amount = (items.map SaleItem.subtotal).sum := by
  obtain ⟨vs, hv, hr⟩ := createEndpoint_ok_aux _ _ _ _ _ _ _ h
  obtain ⟨sale0, prods1, total, hi, hl, hs, hst⟩ := createRaw_ok _ _ _ _ _ _ _ _ hr
  obtain ⟨hits, htot⟩ := createItemsLoop_ok _ _ _ _ _ _ _ _ hl
  have hmap : items.map SaleItem.subtotal =
      vs.map (fun v => v.quantity * v.price_at_sale) := by
    rw [hits]
    simp [List.map_map, Function.comp, SaleItem.subtotal, VItem.toSaleItem]
  rw [hs, hmap]
  simpa using htot

/-- Witness for C1: the fixture scenario, two lines at the current prices,
total 2089.95. -/
theorem C1_witness :
    (createEndpoint demoStore 7 none "TXN-1" 0 [⟨1, 2, none⟩, ⟨2, 3, none⟩]).2 =
      .ok ({ id := 0, sale_date := 0, cashier := 7, total_amount := 208995,
             transaction_id := "TXN-1" },
           [⟨0, 1, 2, 99999⟩, ⟨0, 2, 3, 2999⟩]) ∧
    ({ id := 0, sale_date := 0, cashier := 7, total_amount := 208995,
       transaction_id := "TXN-1" } : Sale).total_amount =
      (([⟨0, 1, 2, 99999⟩, ⟨0, 2, 3, 2999⟩] : List SaleItem).map SaleItem.subtotal).sum :=
  ⟨rfl, C1_total_amount_eq_sum_subtotals demoStore 7 none "TXN-1" 0
      [⟨1, 2, none⟩, ⟨2, 3, none⟩] _ _ rfl⟩

/-- C2: every failing createSale call (insufficient stock, unknown product,
or any other failure during validation or the atomic block) leaves every
product quantity unchanged and persists no Sale or SaleItem: the resulting
store is exactly the initial store. -/
theorem C2_failure_leaves_store_unchanged (st : Store) (u : Nat) (c : Option Nat)
    (tid : String) (now : Nat) (lines : List LineReq) (e : String)
    (h : (createEndpoint st u c tid now lines).2 = .error e) :
    (createEndpoint st u c tid now lines).1 = st :=
  createEndpoint_error_aux st u c tid now lines e h

/-- Witness for C2: a single line requesting 20 laptops with 10 in stock
fails with the insufficient-stock error and leaves the demo store intact. -/
theorem C2_witness :
    (createEndpoint demoStore 7 none "TXN-1" 0 [⟨1, 20, none⟩]).2 =
      .error "Insufficient stock for Laptop. Available: 10, Requested: 20" ∧
    (createEndpoint demoStore 7 none "TXN-1" 0 [⟨1, 20, none⟩]).1 = demoStore :=
  ⟨rfl, C2_failure_leaves_store_unchanged demoStore 7 none "TXN-1" 0 [⟨1, 20, none⟩]
      "Insufficient stock for Laptop. Available: 10, Requested: 20" rfl⟩

/-- C5: update, partial-update and delete against an existing Sale all
return the 405 immutability error and leave the store untouched, and the
serializer's update hook unconditionally raises; nothing is silently
ignored or applied. -/
theorem C5_sales_immutable (st : Store) (pk : Nat) (s : Sale) :
    (saleViewSetUpdate st pk).1 = st ∧
    (saleViewSetUpdate st pk).2.status = "error" ∧
    (saleViewSetUpdate st pk).2.http_status = 405 ∧
    (saleViewSetPatch st pk).1 = st ∧
    (saleViewSetPatch st pk).2.status = "error" ∧
    (saleViewSetPatch st pk).2.http_status = 405 ∧
    (saleViewSetDestroy st pk).1 = st ∧
    (saleViewSetDestroy st pk).2.status = "error" ∧
    (saleViewSetDestroy st pk).2.http_status = 405 ∧
    SaleSerializer.update s =
      .error "Sales cannot be modified after creation. Please create a new sale or process a refund." :=
  ⟨rfl, rfl, rfl, rfl, rfl, rfl, rfl, rfl, rfl, rfl⟩

/-- C10: saving a Sale whose transaction_id is already non-empty never
regenerates it; the externally visible id is stable across saves. -/
theorem C10_save_preserves_nonblank_tid (fresh : String) (s : Sale)
    (h : s.transaction_id ≠ "") :
    (Sale.save fresh s).transaction_id = s.transaction_id := by
  unfold Sale.save
  simp [h]

/-- Witness for C10: re-saving an already persisted sale keeps its id. -/
theorem C10_witness :
    (Sale.save "TXN-NEW" demoSavedSale).transaction_id = demoSavedSale.transaction_id :=
  C10_save_preserves_nonblank_tid "TXN-NEW" demoSavedSale (by decide)

/-- C3: in a successful createSale, a line without a price override gets the
product's current unit price (the field the serializer reads as the selling
price) snapshotted into its SaleItem, and later price edits on the products
table never alter the recorded price_at_sale. -/
theorem C3_price_snapshot (st : Store) (u : Nat) (c : Option Nat) (tid : String)
    (now : Nat) (lines : List LineReq) (sale : Sale) (items : List SaleItem)
    (i : Nat) (l : LineReq)
    (h : (createEndpoint st u c tid now lines).2 = .ok (sale, items))
    (hl : lines[i]? = some l) (hnone : l.price_at_sale = none) :
    (∃ p it, findProduct st.products l.product_id = some p ∧
      items[i]? = some it ∧ it.price_at_sale = p.unit_price) ∧
    ∀ (pid : Nat) (price : Int),
      (setUnitPrice (createEndpoint st u c tid now lines).1 pid price).saleItems =
        (createEndpoint st u c tid now lines).1.saleItems := by
  obtain ⟨vs, hv, hr⟩ := createEndpoint_ok_aux _ _ _ _ _ _ _ h
  constructor
  · have hvl : (validateLoop st.products lines []).2 = .ok vs := by
      unfold runValidation at hv
      by_cases h1 : lines.isEmpty
      · simp [h1] at hv
      · by_cases h2 : lines.length > 100
        · simp [h1, h2] at hv
        · simpa [h1, h2] using hv
    obtain ⟨p, vi, hp, hvi, hpid, hqty, hprice⟩ := validateLoop_get _ _ _ _ hvl i l hl
    obtain ⟨sale0, prods1, total, hi, hloop, hs, hst⟩ := createRaw_ok _ _ _ _ _ _ _ _ hr
    obtain ⟨hits, _⟩ := createItemsLoop_ok _ _ _ _ _ _ _ _ hloop
    refine ⟨p, VItem.toSaleItem sale0.id vi, hp, ?_, ?_⟩
    · rw [hits]
      simp [hvi]
    · simp [VItem.toSaleItem, hprice, hnone]
  · intro pid price
    rfl

/-- Witness for C3: the second line of the fixture order carries no
override, so its recorded price is the mouse's current unit price, and a
later price edit leaves the recorded items untouched. -/
theorem C3_witness :
    (∃ p it, findProduct demoStore.products 2 = some p ∧
      (([⟨0, 1, 2, 99999⟩, ⟨0, 2, 3, 2999⟩] : List SaleItem))[1]? = some it ∧
      it.price_at_sale = p.unit_price) ∧
    (setUnitPrice (createEndpoint demoStore 7 none "TXN-1" 0
        [⟨1, 2, none⟩, ⟨2, 3, none⟩]).1 2 4999).saleItems =
      (createEndpoint demoStore 7 none "TXN-1" 0
        [⟨1, 2, none⟩, ⟨2, 3, none⟩]).1.saleItems :=
  ⟨(C3_price_snapshot demoStore 7 none "TXN-1" 0 [⟨1, 2, none⟩, ⟨2, 3, none⟩]
      _ _ 1 ⟨2, 3, none⟩ rfl rfl rfl).1,
   (C3_price_snapshot demoStore 7 none "TXN-1" 0 [⟨1, 2, none⟩, ⟨2, 3, none⟩]
      _ _ 1 ⟨2, 3, none⟩ rfl rfl rfl).2 2 4999⟩

/-- C4: quantity_in_stock stays non-negative after every operation: an
over-large decrement is rejected with the insufficient-stock error instead of
being clamped or partially applied, a successful decrement subtracts exactly
the requested quantity and lands at a non-negative level, and the whole sale
creation path preserves non-negativity of every product's stock. -/
theorem C4_stock_never_negative :
    (∀ (p : Product) (q : Int), 0 < q → p.quantity_in_stock < q →
      p.decrease_stock q = .error ("Insufficient stock. Available: " ++
        toString p.quantity_in_stock ++ ", Requested: " ++ toString q)) ∧
    (∀ (p : Product) (q : Int) (p1 : Product), p.decrease_stock q = .ok p1 →
      0 ≤ p1.quantity_in_stock ∧
      p1.quantity_in_stock = p.quantity_in_stock - q) ∧
    (∀ (st : Store) (u : Nat) (c : Option Nat) (tid : String) (now : Nat)
      (lines : List LineReq),
      (∀ p ∈ st.products, 0 ≤ p.quantity_in_stock) →
      ∀ p ∈ (createEndpoint st u c tid now lines).1.products,
        0 ≤ p.quantity_in_stock) := by
  refine ⟨?_, ?_, ?_⟩
  · intro p q hq hlt
    unfold Product.decrease_stock
    rw [if_neg (by omega), if_pos hlt]
  · intro p q p1 h
    unfold Product.decrease_stock at h
    by_cases h0 : q ≤ 0
    · simp [h0] at h
    · by_cases h1 : p.quantity_in_stock < q
      · simp [h0, h1] at h
      · simp [h0, h1] at h
        rw [← h]
        constructor
        · simp
          omega
        · rfl
  · intro st u c tid now lines hnn p hp
    rcases hres : (createEndpoint st u c tid now lines).2 with e | res
    · rw [createEndpoint_error_aux st u c tid now lines e hres] at hp
      exact hnn p hp
    · rcases res with ⟨sale, items⟩
      obtain ⟨vs, hv, hr⟩ := createEndpoint_ok_aux _ _ _ _ _ _ _ hres
      obtain ⟨sale0, prods1, total, hi, hloop, hs, hst⟩ := createRaw_ok _ _ _ _ _ _ _ _ hr
      have hp1 : p ∈ prods1 := by
        rw [hst] at hp
        exact hp
      have := createItemsLoop_nonneg sale0.id vs st.products 0 [] hnn p
      rw [hloop] at this
      exact this hp1

/-- Witness for C4: the over-large decrement fails, a legal decrement of 3
lands at 7, and a successful sale creation keeps every demo stock level
non-negative. -/
theorem C4_witness :
    demoLaptop.decrease_stock 20 =
      .error "Insufficient stock. Available: 10, Requested: 20" ∧
    (0 ≤ ({ demoLaptop with quantity_in_stock := 7 } : Product).quantity_in_stock ∧
      ({ demoLaptop with quantity_in_stock := 7 } : Product).quantity_in_stock =
        demoLaptop.quantity_in_stock - 3) ∧
    ∀ p ∈ (createEndpoint demoStore 7 none "TXN-1" 0 [⟨1, 2, none⟩]).1.products,
      0 ≤ p.quantity_in_stock :=
  ⟨C4_stock_never_negative.1 demoLaptop 20 (by decide) (by decide),
   C4_stock_never_negative.2.1 demoLaptop 3 _ rfl,
   C4_stock_never_negative.2.2 demoStore 7 none "TXN-1" 0 [⟨1, 2, none⟩] (by decide)⟩

/-- C6: listSales scopes by role inside the query: a staff or superuser
identity gets every sale (narrowed only by the caller-supplied filter, which
is applied on top of the scoped queryset), while any other identity only
ever receives sales whose cashier is itself, whatever filter is supplied. -/
theorem C6_role_scoping (users : List RequestUser) (sales : List Sale)
    (u : RequestUser) (f : SaleFilterParams) :
    ((u.is_staff || u.is_superuser) = true →
      listSales users sales u f = sales.filter (matchesFilter users f)) ∧
    ((u.is_staff || u.is_superuser) = false →
      ∀ s ∈ listSales users sales u f, s.cashier = u.id) := by
  constructor
  · intro h
    simp [listSales, get_queryset, h]
  · intro h s hs
    simp only [listSales, get_queryset, h, Bool.false_eq_true, if_false,
      List.mem_filter] at hs
    simpa using hs.1.2

/-- Witness for C6: on the demo tables the admin sees both sales and the
cashier identity only ever sees its own. -/
theorem C6_witness :
    listSales [demoAdmin, demoCashierUser] demoSales demoAdmin noFilter =
      demoSales.filter (matchesFilter [demoAdmin, demoCashierUser] noFilter) ∧
    ∀ s ∈ listSales [demoAdmin, demoCashierUser] demoSales demoCashierUser noFilter,
      s.cashier = demoCashierUser.id :=
  ⟨(C6_role_scoping [demoAdmin, demoCashierUser] demoSales demoAdmin noFilter).1 rfl,
   (C6_role_scoping [demoAdmin, demoCashierUser] demoSales demoCashierUser noFilter).2 rfl⟩

/-- C7: the persisted cashier is always the authenticated request user: the
endpoint's result is identical for any two caller-supplied cashier values,
and every successfully created sale records the request user as cashier. -/
theorem C7_cashier_is_request_user (st : Store) (u : Nat) (c1 c2 : Option Nat)
    (tid : String) (now : Nat) (lines : List LineReq) :
    createEndpoint st u c1 tid now lines = createEndpoint st u c2 tid now lines ∧
    ∀ (sale : Sale) (items : List SaleItem),
      (createEndpoint st u c1 tid now lines).2 = .ok (sale, items) →
      sale.cashier = u := by
  constructor
  · rfl
  · intro sale items h
    obtain ⟨vs, hv, hr⟩ := createEndpoint_ok_aux _ _ _ _ _ _ _ h
    obtain ⟨sale0, prods1, total, hi, hloop, hs, hst⟩ := createRaw_ok _ _ _ _ _ _ _ _ hr
    have hc : sale0.cashier = u := by
      simp only [insertSale, Sale.save, if_pos] at hi
      split at hi
      · exact absurd hi (by simp)
      · injection hi with h1
        rw [← h1]
    rw [hs]
    exact hc

/-- Witness for C7: two requests differing only in the caller-supplied
cashier (99 vs 42) give identical results, and the created sale's cashier is
the authenticated user 7. -/
theorem C7_witness :
    createEndpoint demoStore 7 (some 99) "TXN-1" 0 [⟨2, 1, none⟩] =
      createEndpoint demoStore 7 (some 42) "TXN-1" 0 [⟨2, 1, none⟩] ∧
    ({ id := 0, sale_date := 0, cashier := 7, total_amount := 2999,
       transaction_id := "TXN-1" } : Sale).cashier = 7 :=
  ⟨(C7_cashier_is_request_user demoStore 7 (some 99) (some 42) "TXN-1" 0 [⟨2, 1, none⟩]).1,
   (C7_cashier_is_request_user demoStore 7 (some 99) (some 42) "TXN-1" 0 [⟨2, 1, none⟩]).2
      _ [⟨0, 2, 1, 2999⟩] rfl⟩

/-- C8 counterexample: an order listing the demo products as (2, 1)
validates successfully, yet the row locks are acquired in trace [2, 1],
which is not in ascending product-id order.  The code locks in line-request
order; it never sorts by product id. -/
theorem C8_counterexample :
    (runValidation demoProducts demoSwappedLines).2 =
      .ok [⟨2, 1, 2999⟩, ⟨1, 1, 99999⟩] ∧
    (runValidation demoProducts demoSwappedLines).1 = [2, 1] ∧
    ¬ List.Sorted (· ≤ ·) (runValidation demoProducts demoSwappedLines).1 := by
  refine ⟨rfl, rfl, ?_⟩
  rw [(rfl : (runValidation demoProducts demoSwappedLines).1 = [2, 1])]
  decide

/-- C8 amended: within a single createSale execution the inventory row locks
are acquired in the order the lines appear in the request — a deterministic
order given the request, but not sorted by ascending product id. -/
theorem C8_locks_in_request_order (prods : List Product) (lines : List LineReq)
    (vs : List VItem) (h : (runValidation prods lines).2 = .ok vs) :
    (runValidation prods lines).1 = lines.map (fun l => l.product_id) := by
  unfold runValidation at h ⊢
  by_cases h1 : lines.isEmpty
  · simp [h1] at h
  · by_cases h2 : lines.length > 100
    · simp [h1, h2] at h
    · have := validateLoop_trace prods lines [] vs (by simpa [h1, h2] using h)
      simpa [h1, h2] using this

/-- Witness for C8 (amended): the swapped demo order locks exactly its two
product ids in request order. -/
theorem C8_witness :
    (runValidation demoProducts demoSwappedLines).1 =
      demoSwappedLines.map (fun l => l.product_id) :=
  C8_locks_in_request_order demoProducts demoSwappedLines
    [⟨2, 1, 2999⟩, ⟨1, 1, 99999⟩] rfl

/-- C9 counterexample: when the single generated transaction id collides
with an existing one, the insert fails immediately with the database
uniqueness error — there is no re-generation and no retry. -/
theorem C9_counterexample :
    insertSale ["TXN-0AAA"] "TXN-0AAA" demoBlankSale =
      .error "UNIQUE constraint failed: sales_sale.transaction_id" := rfl

/-- C9 amended: Sale.save generates an id only when the field is blank and
performs no uniqueness re-check and no retry; uniqueness is enforced solely
by the database unique constraint, so a colliding generated id fails the
creation immediately, while a fresh one is stored as generated. -/
theorem C9_no_retry_on_collision (existing : List String) (fresh : String) (s : Sale)
    (hblank : s.transaction_id = "") :
    (fresh ∈ existing →
      insertSale existing fresh s =
        .error "UNIQUE constraint failed: sales_sale.transaction_id") ∧
    (fresh ∉ existing →
      insertSale existing fresh s = .ok { s with transaction_id := fresh }) := by
  unfold insertSale Sale.save
  rw [if_pos hblank]
  constructor <;> intro h <;> simp [h]

/-- Witness for C9 (amended): a colliding id fails, a fresh id is stored. -/
theorem C9_witness :
    insertSale ["TXN-X"] "TXN-X" demoBlankSale =
      .error "UNIQUE constraint failed: sales_sale.transaction_id" ∧
    insertSale ["TXN-X"] "TXN-Y" demoBlankSale =
      .ok { demoBlankSale with transaction_id := "TXN-Y" } :=
  ⟨(C9_no_retry_on_collision ["TXN-X"] "TXN-X" demoBlankSale rfl).1 (by decide),
   (C9_no_retry_on_collision ["TXN-X"] "TXN-Y" demoBlankSale rfl).2 (by decide)⟩

end SmartPOS
